import Mathlib

/-!
Verification development for the adaptive math-quiz application
(src/app.py and src/utils.py).  The session store, the answer-submission
turn, question generation and answer evaluation are shallowly embedded as
executable Lean definitions; the generative-AI model is the only external
collaborator and is represented by an oracle value describing the outcome
of each call (a parsed response, or one of the failure classes the code
distinguishes).  Strings are Lean strings; the feedback-parsing code that
splits on newline characters is modelled character-exactly on `List Char`.
-/

/-! ## Character-level string helpers

The application parses the evaluator feedback by `feedback.split('\n')`,
`line.startswith(...)`, `line.replace("Judgment:", "")`, `.strip()`,
`.lower()` and substring tests.  These are embedded below on `List Char`.
-/

/-- Python `s.split('\x7bnewline\x7d')`: split a character list at every newline
character; `splitNl [] = [[]]` just as `''.split` yields one empty field. -/
def splitNl : List Char → List (List Char)
  | [] => [[]]
  | c :: cs =>
    if c = '\n' then [] :: splitNl cs
    else
      match splitNl cs with
      | [] => [[c]]
      | l :: ls => (c :: l) :: ls

/-- Python `line.replace("Judgment:", "")`: delete every occurrence of the
nine-character pattern `Judgment:`, scanning left to right. -/
def replaceJ : List Char → List Char
  | 'J' :: 'u' :: 'd' :: 'g' :: 'm' :: 'e' :: 'n' :: 't' :: ':' :: rest =>
    replaceJ rest
  | c :: cs => c :: replaceJ cs
  | [] => []

/-- Python whitespace as removed by `str.strip()`. -/
def isWS (c : Char) : Bool :=
  c = ' ' || c = '\t' || c = '\n' || c = '\r' || c = '\x0b' || c = '\x0c'

/-- Python `s.strip()`. -/
def trimC (cs : List Char) : List Char :=
  ((cs.dropWhile isWS).reverse.dropWhile isWS).reverse

/-- Python `pat in s` (substring containment). -/
def containsSub (pat : List Char) : List Char → Bool
  | [] => pat.isEmpty
  | c :: cs => pat.isPrefixOf (c :: cs) || containsSub pat cs

theorem splitNl_append_cons (a b : List Char) (h : '\n' ∉ a) :
    splitNl (a ++ '\n' :: b) = a :: splitNl b := by
  induction a with
  | nil => simp [splitNl]
  | cons c a ih =>
    have hc : ¬ c = '\n' := fun hcc => h (hcc ▸ List.mem_cons_self c a)
    have ha : '\n' ∉ a := fun hm => h (List.mem_cons_of_mem c hm)
    simp only [List.cons_append, splitNl, if_neg hc]
    rw [show List.append a ('\n' :: b) = a ++ '\n' :: b from rfl, ih ha]

theorem data_append (a b : String) : (a ++ b).data = a.data ++ b.data := by
  cases a; cases b; rfl

/-! ## Answer evaluation (utils.evaluate_answer)

`evaluate_answer` sends a prompt to the model and parses a JSON object
`{is_correct, judgment_reason, explanation}` out of the reply, catching
every exception.  The outcome of the model call and JSON parse is the
oracle: either the parsed record, or one of the four failure classes the
code handles (`json.JSONDecodeError`, the missing-fields `ValueError`,
a quota/resource-exhausted exception, any other exception).  The function
always returns a feedback string and never raises. -/

inductive EvalOutcome where
  | ok (is_correct : Bool) (judgment_reason : String) (explanation : String)
  | parseError
  | valError
  | quotaError
  | otherError
deriving DecidableEq

/-- A failure outcome of the evaluator call (anything but a parsed record). -/
def EvalOutcome.isFailure : EvalOutcome → Prop
  | .ok _ _ _ => False
  | _ => True

instance : DecidablePred EvalOutcome.isFailure := by
  intro o
  cases o <;> simp [EvalOutcome.isFailure] <;> infer_instance

/-- utils.evaluate_answer, lines 262-371: builds the
`Judgment: ...\x7bnewline\x7dExplanation: ...` feedback string.  On the success
path an explanation shorter than 30 characters after stripping is replaced
with a fallback citing the user answer and the provided correct answer;
each failure path returns its fixed message ending with the provided
correct answer. -/
def evaluate_answer (_question correct user_answer : String) :
    EvalOutcome → String
  | .ok b r e =>
    let e2 :=
      if (trimC e.data).length < 30 then
        if b then
          "Your answer '" ++ user_answer ++
          "' is correct! The step-by-step solution confirms your result. Well done!"
        else
          "Your answer '" ++ user_answer ++ "' is incorrect. The correct answer is '" ++
          correct ++
          "'. Please carefully review the correct solution steps. " ++
          "There might be a calculation error or a misunderstanding of the concept involved. " ++
          "Here's how to get to the correct answer '" ++ correct ++
          "': [AI failed to provide detailed steps here, but this is the correct result. Re-check the problem and solution based on '" ++
          correct ++ "']."
      else e
    "Judgment: " ++ (if b then "Correct" else "Incorrect") ++ " (" ++ r ++
      ")\nExplanation: " ++ e2
  | .parseError =>
    "Judgment: Error - Failed to parse AI feedback" ++ "\n" ++
      ("Explanation: Evaluation system encountered a JSON parsing error. Please check the logs for the raw AI response. The correct answer was: " ++
        correct)
  | .valError =>
    "Judgment: Error - Invalid AI feedback format" ++ "\n" ++
      ("Explanation: Evaluation system received malformed data from AI. Please check the logs. The correct answer was: " ++
        correct)
  | .quotaError =>
    "Judgment: Incorrect! (Evaluation failed due to API limit)" ++ "\n" ++
      ("Explanation: Could not fully evaluate your answer due to an API service issue. Your daily API quota might be exhausted. Please try again later. The correct answer was: " ++
        correct)
  | .otherError =>
    "Judgment: Incorrect! (Evaluation failed due to technical error)" ++ "\n" ++
      ("Explanation: Evaluation system encountered an unexpected error. Please try again. The correct answer was: " ++
        correct)

/-- app.answer, lines 180-185: find the first line starting with
`Judgment:` in the raw feedback. -/
def judgmentLine (fb : String) : Option (List Char) :=
  (splitNl fb.data).find? (fun l => "Judgment:".data.isPrefixOf l)

/-- app.answer, line 185: the correctness verdict extracted from the raw
feedback: the judgment text (after removing `Judgment:` and stripping)
must contain `correct` while containing neither `not correct` nor
`incorrect`, case-insensitively.  With no judgment line, `is_correct`
keeps its initial value `False`. -/
def parseIsCorrect (fb : String) : Bool :=
  match judgmentLine fb with
  | none => false
  | some l =>
    let jt := (trimC (replaceJ l)).map Char.toLower
    containsSub "correct".data jt && !containsSub "not correct".data jt &&
      !containsSub "incorrect".data jt

/-! ## Question generation (utils.get_question)

`get_question` prompts the model for a question at a given topic, concept
and level, parses the JSON reply, overrides a mismatched skill label,
rejects a question text already in the asked-set (the internal duplicate
`ValueError`), and converts every failure into a returned record that
always carries a `question` field (an error message) plus an `error`
field.  The oracle describes the model call and JSON parse. -/

inductive GenOutcome where
  | ok (question answer explanation skill : String) (difficulty : Nat)
  | parseError
  | valError (msg : String)
  | quotaError
  | otherError
deriving DecidableEq

/-- A failure outcome of the question-generation call. -/
def GenOutcome.isFailure : GenOutcome → Prop
  | .ok _ _ _ _ _ => False
  | _ => True

instance : DecidablePred GenOutcome.isFailure := by
  intro o
  cases o <;> simp [GenOutcome.isFailure] <;> infer_instance

/-- The record `get_question` returns (the `question` key is always
present in the source, so it is a plain field here). -/
structure QRecord where
  question : String
  correct_answer : String
  explanation : String
  skill : String
  difficulty : Nat
  error : Option String
deriving DecidableEq

/-- The `(Topic: ..., Concept: ..., Level: ...)` suffix of the error
messages built in utils.get_question. -/
def qErrSuffix (topic concept_name : String) (level : Nat) : String :=
  " (Topic: " ++ topic ++ ", Concept: " ++ concept_name ++ ", Level: " ++
    toString level ++ ")"

/-- utils.get_question, lines 153-260.  On the success path the skill is
forced to the requested concept when it differs, and a question text
already in the asked-set raises the duplicate `ValueError`, which the
function itself catches and turns into an error record.  Every failure
path returns an error record with a non-empty question message; the
function never raises to its caller. -/
def get_question (topic : String) (level : Nat) (concept_name : String)
    (asked_set : List String) : GenOutcome → QRecord
  | .ok q a e sk d =>
    if q ∈ asked_set then
      { question := "Error: Duplicate question received, requesting new one.." ++
          qErrSuffix topic concept_name level,
        correct_answer := "N/A",
        explanation := "The AI response failed validation checks. Please try again.",
        skill := concept_name, difficulty := level,
        error := some "Question validation failed" }
    else
      { question := q, correct_answer := a, explanation := e,
        skill := if sk ≠ concept_name then concept_name else sk,
        difficulty := d, error := none }
  | .parseError =>
    { question := "Error: Could not generate a valid question." ++
        qErrSuffix topic concept_name level,
      correct_answer := "N/A",
      explanation := "The AI response was not valid JSON. Please try again.",
      skill := concept_name, difficulty := level,
      error := some "Failed to parse question JSON" }
  | .valError m =>
    { question := "Error: " ++ m ++ "." ++ qErrSuffix topic concept_name level,
      correct_answer := "N/A",
      explanation := "The AI response failed validation checks. Please try again.",
      skill := concept_name, difficulty := level,
      error := some "Question validation failed" }
  | .quotaError =>
    { question := "Error: API limit reached. Cannot generate custom question." ++
        qErrSuffix topic concept_name level,
      correct_answer := "Please check your API quota.",
      explanation := "The system could not generate a question because the daily API request limit was reached.",
      skill := concept_name, difficulty := level,
      error := some "API quota exceeded during question generation" }
  | .otherError =>
    { question := "An unexpected error occurred generating question." ++
        qErrSuffix topic concept_name level,
      correct_answer := "N/A",
      explanation := "Sorry! An internal error occurred while generating the question.",
      skill := concept_name, difficulty := level,
      error := some "Internal server error during question generation" }

/-- The fixed fallback question substituted by app.answer, lines 258-265,
when the retry loop produced no record at all. -/
def fallbackQ (level : Nat) : QRecord :=
  { question := "We couldn't generate a new question right now. Please try again later.",
    correct_answer := "N/A",
    explanation := "No explanation available for this fallback question.",
    skill := "Fallback Question", difficulty := level, error := none }

/-- The retry loop of app.answer, lines 237-256: each attempt calls
`get_question`; a record with a truthy question text not in the asked-set
is accepted (its text added to the asked-set) and the loop breaks;
otherwise the record is remembered and the next attempt runs.  Returns
the remembered record (if any) and the asked-set. -/
def nextQAux (topic : String) (level : Nat) (concept_name : String)
    (asked_set : List String) :
    List GenOutcome → Option QRecord → Option QRecord × List String
  | [], acc => (acc, asked_set)
  | o :: os, _acc =>
    let q := get_question topic level concept_name asked_set o
    if q.question ≠ "" ∧ q.question ∉ asked_set then
      (some q, asked_set ++ [q.question])
    else nextQAux topic level concept_name asked_set os (some q)

/-- app.answer, lines 237-266: the full next-question selection; the
fallback question is substituted exactly when the loop left no record
(the code condition `not next_q_data or "question" not in next_q_data`;
in the source every `get_question` result carries a question key, so only
an empty result selects the fallback). -/
def nextQuestion (topic : String) (level : Nat) (concept_name : String)
    (asked_set : List String) (outs : List GenOutcome) : QRecord × List String :=
  match nextQAux topic level concept_name asked_set outs none with
  | (some q, asked2) => (q, asked2)
  | (none, asked2) => (fallbackQ level, asked2)

/-! ## Sessions and the session store (app.py)

`SESSIONS` and `SESSION_BACKUPS` are process-wide dictionaries from the
session id to a session dict.  They are modelled as maps
`String → Option Session`; `copy.deepcopy` on these pure values is the
identity, which is faithful exactly because the source always deep-copies
(no mutation of a stored value can alias another stored value).
Timestamps are abstract minutes (`Nat`); the expiry test
`now - last_activity > timedelta(minutes=30)` becomes `30 < now - last`,
which also agrees with the source when `last > now` (both sides false). -/

structure QuizConcept where
  concept_name : String
  description : String
  base_difficulty : Nat
deriving DecidableEq

/-- One element of `session["history"]` as built by utils.record_response,
lines 453-464. -/
structure HistoryEntry where
  question : String
  user_answer : String
  correct_answer : String
  feedback : String
  timestamp : Nat
  level : Nat
  skill : String
deriving DecidableEq

/-- The session dict created in app.start, lines 107-117, plus the
`final_percentage_score` key that app.answer adds on completion.  The
percentage is kept as an exact rational. -/
structure Session where
  username : String
  topic : String
  history : List HistoryEntry
  asked_set : List String
  level : Nat
  score : Nat
  last_activity : Nat
  concepts : List QuizConcept
  current_concept_idx : Nat
  final_percentage_score : Option ℚ
deriving DecidableEq

/-- app.start, lines 107-117: the freshly created session. -/
def createSession (username topic : String) (now : Nat)
    (concepts : List QuizConcept) : Session :=
  { username := username, topic := topic, history := [], asked_set := [],
    level := 1, score := 0, last_activity := now, concepts := concepts,
    current_concept_idx := 0, final_percentage_score := none }

def SMap : Type := String → Option Session

/-- Dict assignment `m[sid] = s`. -/
def mset (m : SMap) (sid : String) (s : Session) : SMap :=
  fun k => if k = sid then some s else m k

/-- The two process-wide dictionaries `SESSIONS` and `SESSION_BACKUPS`. -/
structure Store where
  sessions : SMap
  backups : SMap

/-- app.cleanup_sessions, line 50: is this session expired at `now`? -/
def expired30 (now : Nat) (s : Session) : Bool :=
  decide (30 < now - s.last_activity)

/-- app.cleanup_sessions, lines 46-55: delete every expired session from
`SESSIONS`, and for each expired session id also delete its backup. -/
def cleanup_sessions (now : Nat) (st : Store) : Store :=
  { sessions := fun k =>
      match st.sessions k with
      | some s => if expired30 now s then none else some s
      | none => none,
    backups := fun k =>
      match st.sessions k with
      | some s => if expired30 now s then none else st.backups k
      | none => st.backups k }

/-- app.backup_session, lines 57-62: deep-copy the live session into the
backup map (no-op when the live entry is missing). -/
def backup_session (st : Store) (session_id : String) : Store :=
  match st.sessions session_id with
  | some s => { st with backups := mset st.backups session_id s }
  | none => st

/-- app.recover_session, lines 68-79: return the live session if present;
otherwise restore a deep copy of the backup into the live map and return
it; otherwise report not-found (`None`). -/
def recover_session (st : Store) (session_id : String) :
    Option Session × Store :=
  match st.sessions session_id with
  | some s => (some s, st)
  | none =>
    match st.backups session_id with
    | some b => (some b, { st with sessions := mset st.sessions session_id b })
    | none => (none, st)

/-- app.answer, line 155: `SESSIONS.get(session_id) or recover_session(session_id)`. -/
def getOrRecover (st : Store) (session_id : String) :
    Option Session × Store :=
  match st.sessions session_id with
  | some s => (some s, st)
  | none => recover_session st session_id

/-- The client-supplied fields of an /answer request (app.answer requires
question, user_answer, correct_answer and skill). -/
structure TurnData where
  question : String
  user_answer : String
  correct_answer : String
  skill : String

/-- The external inputs of one /answer turn: the evaluator-call outcome,
the outcomes of the (three) question-generation attempts, and the wall
clock. -/
structure TurnOracle where
  evalOut : EvalOutcome
  genOuts : List GenOutcome
  now : Nat

/-- app.answer, line 168: refresh `last_activity`. -/
def touch (s : Session) (now : Nat) : Session :=
  { s with last_activity := now }

/-- app.answer, lines 176-215: evaluate the answer (the evaluator never
raises, so the first attempt of the retry loop always succeeds), update
score and level, and append the history record via utils.record_response
(which stores the session's current — already adjusted — level and also
adds the answered question text to the asked-set). -/
def applyEval (s1 : Session) (d : TurnData) (o : TurnOracle) : Session :=
  let fb := evaluate_answer d.question d.correct_answer d.user_answer o.evalOut
  let s2 :=
    if parseIsCorrect fb then
      { s1 with score := s1.score + 1, level := min (s1.level + 1) 5 }
    else
      { s1 with level := max (s1.level - 1) 1 }
  { s2 with
    history := s2.history ++
      [{ question := d.question, user_answer := d.user_answer,
         correct_answer := d.correct_answer, feedback := fb,
         timestamp := o.now, level := s2.level, skill := d.skill }],
    asked_set := if d.question ∈ s2.asked_set then s2.asked_set
                 else s2.asked_set ++ [d.question] }

/-- The JSON body app.answer returns: session-missing error, bare
`{quiz_complete: true}`, or the next-question payload. -/
inductive AnswerResponse where
  | missingSession
  | complete
  | next (is_correct : Bool) (question : String) (correct_answer : String)
      (level : Nat) (progress : Nat) (score : Nat) (skill : String)
deriving DecidableEq

/-- The question text of a next-question response, if any. -/
def AnswerResponse.questionText : AnswerResponse → Option String
  | .next _ q _ _ _ _ _ => some q
  | _ => none

/-- app.answer, lines 222-225: on completion, store the final percentage
`(score / 10) * 100` (exact rational) on the session. -/
def completeSession (s3 : Session) : Session :=
  { s3 with final_percentage_score := some (((s3.score : ℚ) / 10) * 100) }

/-- app.answer, line 232: advance the concept index cyclically. -/
def advanceConcept (s3 : Session) : Session :=
  { s3 with
    current_concept_idx := (s3.current_concept_idx + 1) % s3.concepts.length }

/-- app.answer, line 233: the concept whose name the next question is
requested for (`session["concepts"][session["current_concept_idx"]]`). -/
def nextConceptName (s4 : Session) : String :=
  (s4.concepts.getD s4.current_concept_idx ⟨"", "", 0⟩).concept_name

/-- The retry loop of app.answer applied to the post-evaluation session:
the accepted (or last) question record and the updated asked-set. -/
def turnQuestion (s3 : Session) (outs : List GenOutcome) : QRecord × List String :=
  nextQuestion (advanceConcept s3).topic (advanceConcept s3).level
    (nextConceptName (advanceConcept s3)) (advanceConcept s3).asked_set outs

/-- The session as stored after a non-completing turn (index advanced,
asked-set updated by the retry loop). -/
def nextTurnSession (s3 : Session) (outs : List GenOutcome) : Session :=
  { advanceConcept s3 with asked_set := (turnQuestion s3 outs).2 }

/-- app.answer, lines 141-278 (after request validation): look up or
recover the session; refresh `last_activity`; back up; evaluate and
record; on `len(history) >= 10` store the final percentage
`(score / 10) * 100`, run `cleanup_sessions` and return
`{quiz_complete: true}` with no question fields; otherwise advance the
concept index cyclically and run the next-question retry loop. -/
def answerTurn (st : Store) (sid : String) (d : TurnData) (o : TurnOracle) :
    AnswerResponse × Store :=
  match getOrRecover st sid with
  | (none, st1) => (.missingSession, st1)
  | (some s, st1) =>
    let s1 := touch s o.now
    let st2 := backup_session { st1 with sessions := mset st1.sessions sid s1 } sid
    let s3 := applyEval s1 d o
    if 10 ≤ s3.history.length then
      (.complete,
        cleanup_sessions o.now
          { st2 with sessions := mset st2.sessions sid (completeSession s3) })
    else
      let s5 := nextTurnSession s3 o.genOuts
      let q := (turnQuestion s3 o.genOuts).1
      (.next (parseIsCorrect
          (evaluate_answer d.question d.correct_answer d.user_answer o.evalOut))
          q.question q.correct_answer s5.level s5.history.length s5.score
          q.skill,
        { st2 with sessions := mset st2.sessions sid s5 })

/-- A sequence of /answer turns against one session id. -/
def runTurns (st : Store) (sid : String) :
    List (TurnData × TurnOracle) → Store
  | [] => st
  | t :: ts => runTurns (answerTurn st sid t.1 t.2).2 sid ts

/-- The eviction scenario hypothesised by the spec for recovery: the live
entry is lost while the backup survives (no single source operation does
this — cleanup_sessions removes both — so it is modelled as an external
loss of the live entry). -/
def evictLive (st : Store) (sid : String) : Store :=
  { st with sessions := fun k => if k = sid then none else st.sessions k }

/-- A store holding exactly one live session and no backups (the state
right after app.start, question bookkeeping aside). -/
def singleStore (sid : String) (s : Session) : Store :=
  { sessions := fun k => if k = sid then some s else none,
    backups := fun _ => none }

/-! ## Basic lemmas about the store operations -/

theorem mset_self (m : SMap) (sid : String) (s : Session) :
    mset m sid s sid = some s := by
  simp [mset]

theorem getOrRecover_live {st : Store} {sid : String} {s : Session}
    (h : st.sessions sid = some s) : getOrRecover st sid = (some s, st) := by
  simp [getOrRecover, h]

theorem backup_session_sessions (st : Store) (sid : String) :
    (backup_session st sid).sessions = st.sessions := by
  unfold backup_session
  split <;> rfl

theorem backup_session_backups_self {st : Store} {sid : String} {s : Session}
    (h : st.sessions sid = some s) :
    (backup_session st sid).backups sid = some s := by
  simp [backup_session, h, mset]

theorem applyEval_level (s1 : Session) (d : TurnData) (o : TurnOracle) :
    (applyEval s1 d o).level =
      if parseIsCorrect
          (evaluate_answer d.question d.correct_answer d.user_answer o.evalOut)
        then min (s1.level + 1) 5 else max (s1.level - 1) 1 := by
  unfold applyEval
  dsimp only
  split <;> simp_all

theorem applyEval_score (s1 : Session) (d : TurnData) (o : TurnOracle) :
    (applyEval s1 d o).score =
      if parseIsCorrect
          (evaluate_answer d.question d.correct_answer d.user_answer o.evalOut)
        then s1.score + 1 else s1.score := by
  unfold applyEval
  dsimp only
  split <;> simp_all

theorem applyEval_history_length (s1 : Session) (d : TurnData) (o : TurnOracle) :
    (applyEval s1 d o).history.length = s1.history.length + 1 := by
  unfold applyEval
  dsimp only
  split <;> simp

theorem applyEval_history_take (s1 : Session) (d : TurnData) (o : TurnOracle) :
    (applyEval s1 d o).history.take s1.history.length = s1.history := by
  unfold applyEval
  dsimp only
  split <;> simp [List.take_append]

theorem applyEval_last (s1 : Session) (d : TurnData) (o : TurnOracle) :
    (applyEval s1 d o).last_activity = s1.last_activity := by
  unfold applyEval
  dsimp only
  split <;> rfl

theorem applyEval_idx (s1 : Session) (d : TurnData) (o : TurnOracle) :
    (applyEval s1 d o).current_concept_idx = s1.current_concept_idx := by
  unfold applyEval
  dsimp only
  split <;> rfl

theorem applyEval_concepts (s1 : Session) (d : TurnData) (o : TurnOracle) :
    (applyEval s1 d o).concepts = s1.concepts := by
  unfold applyEval
  dsimp only
  split <;> rfl

theorem applyEval_final (s1 : Session) (d : TurnData) (o : TurnOracle) :
    (applyEval s1 d o).final_percentage_score = s1.final_percentage_score := by
  unfold applyEval
  dsimp only
  split <;> rfl

theorem expired30_now (now : Nat) (s : Session) (h : s.last_activity = now) :
    expired30 now s = false := by
  simp [expired30, h]

theorem completeSession_fields (s3 : Session) :
    (completeSession s3).history = s3.history ∧
    (completeSession s3).level = s3.level ∧
    (completeSession s3).score = s3.score ∧
    (completeSession s3).concepts = s3.concepts ∧
    (completeSession s3).last_activity = s3.last_activity ∧
    (completeSession s3).current_concept_idx = s3.current_concept_idx ∧
    (completeSession s3).final_percentage_score =
      some (((s3.score : ℚ) / 10) * 100) := by
  refine ⟨rfl, rfl, rfl, rfl, rfl, rfl, rfl⟩

theorem nextTurnSession_fields (s3 : Session) (outs : List GenOutcome) :
    (nextTurnSession s3 outs).history = s3.history ∧
    (nextTurnSession s3 outs).level = s3.level ∧
    (nextTurnSession s3 outs).score = s3.score ∧
    (nextTurnSession s3 outs).concepts = s3.concepts ∧
    (nextTurnSession s3 outs).last_activity = s3.last_activity ∧
    (nextTurnSession s3 outs).current_concept_idx =
      (s3.current_concept_idx + 1) % s3.concepts.length ∧
    (nextTurnSession s3 outs).final_percentage_score =
      s3.final_percentage_score := by
  refine ⟨rfl, rfl, rfl, rfl, rfl, rfl, rfl⟩

/-! ## The answer-turn characterisation

`answerTurn_spec` packages everything the claims need about one /answer
turn on a live session: the session stays in the store, its post-turn
fields, the backup snapshot, and the completion condition. -/

theorem answerTurn_spec {st : Store} {sid : String} {s : Session}
    (d : TurnData) (o : TurnOracle) (h : st.sessions sid = some s) :
    (answerTurn st sid d o).2.sessions sid =
      some (if 10 ≤ s.history.length + 1 then
              completeSession (applyEval (touch s o.now) d o)
            else nextTurnSession (applyEval (touch s o.now) d o) o.genOuts) ∧
    (answerTurn st sid d o).2.backups sid = some (touch s o.now) ∧
    ((answerTurn st sid d o).1 = .complete ↔ 10 ≤ s.history.length + 1) := by
  have hlen : (applyEval (touch s o.now) d o).history.length =
      s.history.length + 1 := by
    rw [applyEval_history_length]
    rfl
  have hlast : (applyEval (touch s o.now) d o).last_activity = o.now := by
    rw [applyEval_last]
    rfl
  unfold answerTurn
  rw [getOrRecover_live h]
  dsimp only
  by_cases hc : 10 ≤ (applyEval (touch s o.now) d o).history.length
  · rw [if_pos hc]
    rw [hlen] at hc
    have hexp : expired30 o.now (completeSession (applyEval (touch s o.now) d o)) =
        false := by
      apply expired30_now
      rw [(completeSession_fields _).2.2.2.2.1, hlast]
    refine ⟨?_, ?_, ?_⟩
    · show (cleanup_sessions o.now _).sessions sid = _
      simp only [cleanup_sessions, mset_self, hexp, if_pos hc]
      simp
    · show (cleanup_sessions o.now _).backups sid = _
      simp only [cleanup_sessions, mset_self, hexp]
      simp only [Bool.false_eq_true, if_false]
      rw [backup_session_backups_self]
      exact mset_self _ _ _
    · simp [hc]
  · rw [if_neg hc]
    rw [hlen] at hc
    refine ⟨?_, ?_, ?_⟩
    · show (mset _ sid _) sid = _
      rw [mset_self, if_neg hc]
    · show (backup_session _ sid).backups sid = _
      rw [backup_session_backups_self]
      exact mset_self _ _ _
    · simp [hc]

/-- Field bookkeeping over a whole run of /answer turns: the session stays
in the store, its history grows by one entry per turn, its concept list is
unchanged, level bounds are preserved, the concept index stays a valid
index, and (as long as the quiz cannot complete) the index equals the
number of answers taken modulo the number of concepts. -/
theorem runTurns_spec (sid : String) :
    ∀ (ts : List (TurnData × TurnOracle)) (st : Store) (s : Session),
      st.sessions sid = some s →
      ∃ s2, (runTurns st sid ts).sessions sid = some s2 ∧
        s2.history.length = s.history.length + ts.length ∧
        s2.concepts = s.concepts ∧
        (1 ≤ s.level → s.level ≤ 5 → 1 ≤ s2.level ∧ s2.level ≤ 5) ∧
        (s.current_concept_idx < s.concepts.length →
          s2.current_concept_idx < s.concepts.length) ∧
        (s.history.length + ts.length ≤ 9 →
          s.current_concept_idx = s.history.length % s.concepts.length →
          0 < s.concepts.length →
          s2.current_concept_idx =
            (s.history.length + ts.length) % s.concepts.length) := by
  intro ts
  induction ts with
  | nil =>
    intro st s h
    exact ⟨s, h, by simp, rfl, fun h1 h5 => ⟨h1, h5⟩, fun hi => hi,
      fun _ hidx _ => by simpa using hidx⟩
  | cons t ts ih =>
    intro st s h
    obtain ⟨hset, -, -⟩ := answerTurn_spec t.1 t.2 h
    obtain ⟨s2, hs2, hlen2, hcon2, hlev2, hlt2, hidx2⟩ :=
      ih (answerTurn st sid t.1 t.2).2 _ hset
    set s1 := (if 10 ≤ s.history.length + 1 then
        completeSession (applyEval (touch s t.2.now) t.1 t.2)
      else nextTurnSession (applyEval (touch s t.2.now) t.1 t.2) t.2.genOuts)
      with hs1def
    have h1len : s1.history.length = s.history.length + 1 := by
      rw [hs1def]
      split
      · rw [(completeSession_fields _).1]
        rw [applyEval_history_length]
        rfl
      · rw [(nextTurnSession_fields _ _).1]
        rw [applyEval_history_length]
        rfl
    have h1con : s1.concepts = s.concepts := by
      rw [hs1def]
      split
      · rw [(completeSession_fields _).2.2.2.1, applyEval_concepts]
        rfl
      · rw [(nextTurnSession_fields _ _).2.2.2.1, applyEval_concepts]
        rfl
    have h1lev : s1.level =
        (if parseIsCorrect (evaluate_answer t.1.question t.1.correct_answer
            t.1.user_answer t.2.evalOut)
          then min (s.level + 1) 5 else max (s.level - 1) 1) := by
      rw [hs1def]
      split
      · rw [(completeSession_fields _).2.1, applyEval_level]
        rfl
      · rw [(nextTurnSession_fields _ _).2.1, applyEval_level]
        rfl
    have h1idx : s1.current_concept_idx =
        (if 10 ≤ s.history.length + 1 then s.current_concept_idx
         else (s.current_concept_idx + 1) % s.concepts.length) := by
      rw [hs1def]
      split
      · rw [(completeSession_fields _).2.2.2.2.2.1, applyEval_idx]
        rfl
      · rw [(nextTurnSession_fields _ _).2.2.2.2.2.1, applyEval_idx,
          applyEval_concepts]
        rfl
    refine ⟨s2, hs2, ?_, by rw [hcon2, h1con], ?_, ?_, ?_⟩
    · rw [hlen2, h1len]
      simp only [List.length_cons]
      omega
    · intro hl1 hl5
      apply hlev2 <;> rw [h1lev] <;> split <;> omega
    · intro hlt
      rw [← h1con]
      apply hlt2
      rw [h1idx, h1con]
      split
      · exact hlt
      · exact Nat.mod_lt _ (by omega)
    · intro hbound hidx hpos
      simp only [List.length_cons] at hbound
      have hnc : ¬ 10 ≤ s.history.length + 1 := by omega
      have := hidx2 (by rw [h1len]; omega)
        (by rw [h1idx, if_neg hnc, h1len, h1con, hidx, Nat.mod_add_mod])
        (by rw [h1con]; exact hpos)
      rw [this, h1len, h1con]
      congr 1
      simp only [List.length_cons]
      omega

/-! ## Lemmas on recovery and feedback parsing -/

theorem sappend_assoc (a b c : String) : (a ++ b) ++ c = a ++ (b ++ c) := by
  cases a with | mk la =>
  cases b with | mk lb =>
  cases c with | mk lc =>
  show String.mk ((la ++ lb) ++ lc) = String.mk (la ++ (lb ++ lc))
  rw [List.append_assoc]

theorem recover_session_live {st : Store} {sid : String} {s : Session}
    (h : st.sessions sid = some s) : recover_session st sid = (some s, st) := by
  simp [recover_session, h]

theorem recover_session_backup {st : Store} {sid : String} {b : Session}
    (h1 : st.sessions sid = none) (h2 : st.backups sid = some b) :
    (recover_session st sid).1 = some b ∧
    (recover_session st sid).2.sessions sid = some b ∧
    (recover_session st sid).2.backups = st.backups := by
  simp [recover_session, h1, h2, mset_self]

theorem recover_session_missing {st : Store} {sid : String}
    (h1 : st.sessions sid = none) (h2 : st.backups sid = none) :
    recover_session st sid = (none, st) := by
  simp [recover_session, h1, h2]

theorem recover_session_backups_eq (st : Store) (sid : String) :
    (recover_session st sid).2.backups = st.backups := by
  unfold recover_session
  split
  · rfl
  · split <;> rfl

theorem evictLive_sessions_self (st : Store) (sid : String) :
    (evictLive st sid).sessions sid = none := by
  simp [evictLive]

theorem evictLive_backups (st : Store) (sid : String) :
    (evictLive st sid).backups = st.backups := rfl

/-- The verdict extracted from a feedback string of the shape
`j ++ newline ++ e` is `false` whenever the (newline-free) judgment line
`j` fails the textual correctness test of app.answer line 185. -/
theorem parseIsCorrect_jline (j e2 : String) (hnl : '\n' ∉ j.data)
    (hpre : ("Judgment:".data.isPrefixOf j.data) = true)
    (hval : (containsSub "correct".data
        ((trimC (replaceJ j.data)).map Char.toLower) &&
      !containsSub "not correct".data
        ((trimC (replaceJ j.data)).map Char.toLower) &&
      !containsSub "incorrect".data
        ((trimC (replaceJ j.data)).map Char.toLower)) = false) :
    parseIsCorrect (j ++ "\n" ++ e2) = false := by
  have hdata : (j ++ "\n" ++ e2).data = j.data ++ '\n' :: e2.data := by
    rw [data_append, data_append]
    rw [List.append_assoc]
    rfl
  unfold parseIsCorrect judgmentLine
  rw [hdata, splitNl_append_cons _ _ hnl]
  rw [List.find?_cons_of_pos _ hpre]
  exact hval

/-! ## Lemmas on the next-question retry loop -/

theorem nextQAux_cases (topic : String) (level : Nat) (cname : String)
    (asked : List String) :
    ∀ (outs : List GenOutcome) (acc : Option QRecord),
      (nextQAux topic level cname asked outs acc).2 = asked ∨
      (∃ q, nextQAux topic level cname asked outs acc =
          (some q, asked ++ [q.question]) ∧
        q.question ∉ asked ∧ q.question ≠ "") := by
  intro outs
  induction outs with
  | nil => intro acc; exact Or.inl rfl
  | cons o os ih =>
    intro acc
    unfold nextQAux
    dsimp only
    split
    · rename_i hacc
      exact Or.inr ⟨_, rfl, hacc.2, hacc.1⟩
    · exact ih (some (get_question topic level cname asked o))

theorem nextQAux_isSome (topic : String) (level : Nat) (cname : String)
    (asked : List String) :
    ∀ (outs : List GenOutcome) (acc : Option QRecord),
      acc.isSome = true ∨ outs ≠ [] →
      (nextQAux topic level cname asked outs acc).1.isSome = true := by
  intro outs
  induction outs with
  | nil =>
    intro acc h
    rcases h with h | h
    · exact h
    · exact absurd rfl h
  | cons o os ih =>
    intro acc _
    unfold nextQAux
    dsimp only
    split
    · rfl
    · exact ih _ (Or.inl rfl)

theorem nextQuestion_grew (topic : String) (level : Nat) (cname : String)
    (asked : List String) (outs : List GenOutcome)
    (h : (nextQuestion topic level cname asked outs).2 ≠ asked) :
    (nextQuestion topic level cname asked outs).1.question ∉ asked ∧
    (nextQuestion topic level cname asked outs).2 =
      asked ++ [(nextQuestion topic level cname asked outs).1.question] := by
  rcases nextQAux_cases topic level cname asked outs none with hsame | ⟨q, heq, hna, _⟩
  · exfalso
    apply h
    unfold nextQuestion
    split <;> rename_i _ hm <;> rw [hm] at hsame <;> exact hsame
  · have : nextQuestion topic level cname asked outs = (q, asked ++ [q.question]) := by
      unfold nextQuestion
      rw [heq]
    rw [this]
    exact ⟨hna, rfl⟩

theorem nextQuestion_mem_same (topic : String) (level : Nat) (cname : String)
    (asked : List String) (outs : List GenOutcome)
    (h : (nextQuestion topic level cname asked outs).1.question ∈ asked) :
    (nextQuestion topic level cname asked outs).2 = asked := by
  by_contra hne
  exact (nextQuestion_grew topic level cname asked outs hne).1 h

theorem nextQuestion_accept_first (topic : String) (level : Nat)
    (cname : String) (asked : List String) (o : GenOutcome)
    (outs : List GenOutcome)
    (hne : (get_question topic level cname asked o).question ≠ "")
    (hna : (get_question topic level cname asked o).question ∉ asked) :
    nextQuestion topic level cname asked (o :: outs) =
      (get_question topic level cname asked o,
        asked ++ [(get_question topic level cname asked o).question]) := by
  unfold nextQuestion nextQAux
  dsimp only
  rw [if_pos ⟨hne, hna⟩]

theorem nextQuestion_nil (topic : String) (level : Nat) (cname : String)
    (asked : List String) :
    nextQuestion topic level cname asked [] = (fallbackQ level, asked) := rfl

theorem data_ne_nil_left (a b : String) (h : a.data ≠ []) :
    (a ++ b).data ≠ [] := by
  rw [data_append]
  intro hh
  exact h (List.append_eq_nil.mp hh).1

theorem append_ne_empty (a b : String) (h : a.data ≠ []) : a ++ b ≠ "" := by
  intro he
  have hd : (a ++ b).data = [] := by
    rw [he]
  exact data_ne_nil_left a b h hd

theorem get_question_failure_shape (topic : String) (level : Nat)
    (cname : String) (asked : List String) (o : GenOutcome)
    (hf : o.isFailure) :
    (get_question topic level cname asked o).question ≠ "" ∧
    (get_question topic level cname asked o).error ≠ none := by
  cases o with
  | ok q a e sk d => exact absurd hf (by simp [GenOutcome.isFailure])
  | parseError =>
    refine ⟨?_, ?_⟩
    · show ("Error: Could not generate a valid question." ++
        qErrSuffix topic cname level) ≠ ""
      exact append_ne_empty _ _ (by decide)
    · show some "Failed to parse question JSON" ≠ none
      simp
  | valError m =>
    refine ⟨?_, ?_⟩
    · show ("Error: " ++ m ++ "." ++ qErrSuffix topic cname level) ≠ ""
      exact append_ne_empty _ _
        (data_ne_nil_left _ _ (data_ne_nil_left _ _ (by decide)))
    · show some "Question validation failed" ≠ none
      simp
  | quotaError =>
    refine ⟨?_, ?_⟩
    · show ("Error: API limit reached. Cannot generate custom question." ++
        qErrSuffix topic cname level) ≠ ""
      exact append_ne_empty _ _ (by decide)
    · show some "API quota exceeded during question generation" ≠ none
      simp
  | otherError =>
    refine ⟨?_, ?_⟩
    · show ("An unexpected error occurred generating question." ++
        qErrSuffix topic cname level) ≠ ""
      exact append_ne_empty _ _ (by decide)
    · show some "Internal server error during question generation" ≠ none
      simp

theorem get_question_duplicate_shape (topic : String) (level : Nat)
    (cname : String) (asked : List String)
    (q a e sk : String) (d : Nat) (hmem : q ∈ asked) :
    (get_question topic level cname asked (.ok q a e sk d)).question ≠ "" ∧
    (get_question topic level cname asked (.ok q a e sk d)).error ≠ none := by
  have hq : get_question topic level cname asked (.ok q a e sk d) =
      { question := "Error: Duplicate question received, requesting new one.." ++
          qErrSuffix topic cname level,
        correct_answer := "N/A",
        explanation := "The AI response failed validation checks. Please try again.",
        skill := cname, difficulty := level,
        error := some "Question validation failed" } := by
    unfold get_question
    dsimp only
    rw [if_pos hmem]
  rw [hq]
  exact ⟨append_ne_empty _ _ (by decide), by simp⟩

/-! ## Concrete scenario values used by witnesses and counterexamples -/

/-- A one-concept concept list (as the generic fallback path can yield
few concepts; any nonempty list works for the scenarios). -/
def cexConcepts : List QuizConcept := [⟨"C", "d", 1⟩]

/-- A store holding one freshly created session under id `s`. -/
def cexStore : Store := singleStore "s" (createSession "u" "T" 0 cexConcepts)

/-- An /answer request body. -/
def dAns : TurnData := ⟨"Q0", "x", "a", "C"⟩

/-- A second /answer request body. -/
def dAns2 : TurnData := ⟨"Q1", "x", "a", "C"⟩

/-- Oracle of a turn whose evaluation hits the API quota (verdict parsed
as incorrect) and whose three question-generation attempts all fail to
parse. -/
def oIncorrect : TurnOracle :=
  ⟨.quotaError, [.parseError, .parseError, .parseError], 0⟩

/-- Oracle of a turn whose evaluation parses as correct and whose first
question-generation attempt succeeds. -/
def oCorrect : TurnOracle :=
  ⟨.ok true "Equivalent" "Subtract three from both sides and divide by two.",
    [.ok "QX" "a" "e" "C" 1, .parseError, .parseError], 0⟩

/-- The duplicate error text produced for topic `T`, concept `C`,
level 1. -/
def cexErrText : String :=
  "Error: Could not generate a valid question. (Topic: T, Concept: C, Level: 1)"

/-! ## Claim theorems -/

/-- Claim C1 (counterexample): after one answered turn, the live session
has one history entry, score 1 and level 2; evicting the live entry and
calling recover restores the backup, whose history is empty and whose
score and level are the pre-turn values — not those of the live session
immediately before eviction.  This refutes the claimed identity of
`history`, `score` and `level`. -/
theorem C1_counterexample :
    ((answerTurn cexStore "s" dAns oCorrect).2.sessions "s").map
        (fun s => (s.history.length, s.score, s.level)) = some (1, 1, 2) ∧
    ((recover_session (evictLive (answerTurn cexStore "s" dAns oCorrect).2 "s")
        "s").1).map (fun s => (s.history.length, s.score, s.level)) =
      some (0, 0, 1) := by
  decide

/-- Claim C1 (amended): recover returns the live session when present,
restores a deep copy of the backup into the live map when only the backup
exists, and reports not-found when both are missing; however the session
it restores after an eviction carries the history, score and level from
the moment the backup was taken — the start of the most recent answer
turn, before that turn's mutations — not those of the live session
immediately before eviction. -/
theorem C1_recover_spec (st : Store) (sid : String) (s b : Session)
    (d : TurnData) (o : TurnOracle) :
    (st.sessions sid = some s → recover_session st sid = (some s, st)) ∧
    (st.sessions sid = none → st.backups sid = some b →
      (recover_session st sid).1 = some b ∧
      (recover_session st sid).2.sessions sid = some b ∧
      (recover_session st sid).2.backups = st.backups) ∧
    (st.sessions sid = none → st.backups sid = none →
      recover_session st sid = (none, st)) ∧
    (st.sessions sid = some s →
      (answerTurn st sid d o).2.backups sid = some (touch s o.now) ∧
      (recover_session (evictLive (answerTurn st sid d o).2 sid) sid).1 =
        some (touch s o.now) ∧
      (touch s o.now).history = s.history ∧
      (touch s o.now).score = s.score ∧
      (touch s o.now).level = s.level) := by
  refine ⟨fun h => recover_session_live h,
    fun h1 h2 => recover_session_backup h1 h2,
    fun h1 h2 => recover_session_missing h1 h2,
    fun h => ?_⟩
  obtain ⟨-, hbk, -⟩ := answerTurn_spec d o h
  refine ⟨hbk, ?_, rfl, rfl, rfl⟩
  have h1 : (evictLive (answerTurn st sid d o).2 sid).sessions sid = none :=
    evictLive_sessions_self _ _
  have h2 : (evictLive (answerTurn st sid d o).2 sid).backups sid =
      some (touch s o.now) := by
    rw [evictLive_backups]
    exact hbk
  exact (recover_session_backup h1 h2).1

/-- Claim C2: the session is created at level 1; each answered turn sets
the level to `min(level+1, 5)` on a correct verdict and to
`max(level-1, 1)` otherwise; consequently over any sequence of turns the
level stays within `[1, 5]`. -/
theorem C2_level_clamped (u t : String) (n : Nat) (cs : List QuizConcept)
    (sid : String) (st : Store) (ts : List (TurnData × TurnOracle))
    (h : st.sessions sid = some (createSession u t n cs)) :
    (createSession u t n cs).level = 1 ∧
    (∀ (st2 : Store) (s : Session) (d : TurnData) (o : TurnOracle),
      st2.sessions sid = some s →
      ∃ s2, (answerTurn st2 sid d o).2.sessions sid = some s2 ∧
        s2.level =
          (if parseIsCorrect (evaluate_answer d.question d.correct_answer
              d.user_answer o.evalOut)
            then min (s.level + 1) 5 else max (s.level - 1) 1)) ∧
    (∀ s2, (runTurns st sid ts).sessions sid = some s2 →
      1 ≤ s2.level ∧ s2.level ≤ 5) := by
  refine ⟨rfl, ?_, ?_⟩
  · intro st2 s d o h2
    obtain ⟨hset, -, -⟩ := answerTurn_spec d o h2
    refine ⟨_, hset, ?_⟩
    split
    · rw [(completeSession_fields _).2.1, applyEval_level]
      rfl
    · rw [(nextTurnSession_fields _ _).2.1, applyEval_level]
      rfl
  · intro s2 h2
    obtain ⟨s2', hs2', -, -, hlev, -, -⟩ := runTurns_spec sid ts st _ h
    have heq : s2' = s2 := by
      rw [hs2'] at h2
      exact Option.some.inj h2
    rw [← heq]
    exact hlev (by rfl) (by simp [createSession])

/-- Claim C3 (counterexample): completion does not trigger exactly when
the history length equals 10.  After ten answered turns the session is
still in the store with ten history entries (it is not deleted on
completion), and an eleventh submission — history length 10 before, 11
after — again returns quiz_complete. -/
theorem C3_counterexample :
    ∃ s10, (runTurns cexStore "s"
        (List.replicate 10 (dAns, oIncorrect))).sessions "s" = some s10 ∧
      s10.history.length = 10 ∧
      (answerTurn (runTurns cexStore "s" (List.replicate 10 (dAns, oIncorrect)))
          "s" dAns2 oIncorrect).1 = .complete ∧
      ∃ s11, (answerTurn (runTurns cexStore "s"
          (List.replicate 10 (dAns, oIncorrect))) "s" dAns2 oIncorrect).2.sessions
            "s" = some s11 ∧
        s11.history.length = 11 := by
  have h0 : cexStore.sessions "s" = some (createSession "u" "T" 0 cexConcepts) := by
    decide
  obtain ⟨s10, hs10, hlen, -, -, -⟩ :=
    runTurns_spec "s" (List.replicate 10 (dAns, oIncorrect)) cexStore _ h0
  simp only [createSession, List.length_nil, List.length_replicate,
    Nat.zero_add] at hlen
  obtain ⟨hset, -, hiff⟩ := answerTurn_spec dAns2 oIncorrect hs10
  have hc : 10 ≤ s10.history.length + 1 := by omega
  refine ⟨s10, hs10, hlen, hiff.mpr hc, ?_⟩
  rw [if_pos hc] at hset
  refine ⟨_, hset, ?_⟩
  rw [(completeSession_fields _).1, applyEval_history_length]
  simpa [touch] using by omega

/-- Claim C3 (amended): a turn triggers completion exactly when the
history length after recording the answer is at least 10 (on the 10th
submission and, because the completed session is not removed, on every
later one); the completing response is exactly quiz_complete with no
question fields, and the session then stores
`final_percentage_score = (score / 10) * 100`, which equals `10 * score`
for every score. -/
theorem C3_completion_threshold (st : Store) (sid : String) (s : Session)
    (d : TurnData) (o : TurnOracle) (h : st.sessions sid = some s) :
    ((answerTurn st sid d o).1 = .complete ↔ 10 ≤ s.history.length + 1) ∧
    (10 ≤ s.history.length + 1 →
      (answerTurn st sid d o).1 = .complete ∧
      (answerTurn st sid d o).1.questionText = none ∧
      ∃ s2, (answerTurn st sid d o).2.sessions sid = some s2 ∧
        s2.history.length = s.history.length + 1 ∧
        s2.final_percentage_score = some ((s2.score : ℚ) / 10 * 100) ∧
        (s2.score : ℚ) / 10 * 100 = 10 * s2.score) := by
  obtain ⟨hset, -, hiff⟩ := answerTurn_spec d o h
  refine ⟨hiff, fun hc => ⟨hiff.mpr hc, ?_, ?_⟩⟩
  · rw [hiff.mpr hc]
    rfl
  · rw [if_pos hc] at hset
    refine ⟨_, hset, ?_, ?_, by ring⟩
    · rw [(completeSession_fields _).1, applyEval_history_length]
      rfl
    · rw [(completeSession_fields _).2.2.2.2.2.2,
        (completeSession_fields _).2.2.1]

/-- Claim C4 (counterexample): turn one (evaluation fails, all three
generation attempts fail to parse) accepts the deterministic parse-error
text into the asked-set; turn two at the same concept and level produces
the same text on all three attempts, exhausts the loop, and returns that
text as the turn's final question even though it is already in the
asked-set at that moment.  The final accepted question is therefore not
always new. -/
theorem C4_counterexample :
    ((answerTurn cexStore "s" dAns oIncorrect).2.sessions "s").map
        (fun s => s.asked_set) = some ["Q0", cexErrText] ∧
    cexErrText ∈ ["Q0", cexErrText] ∧
    (answerTurn (answerTurn cexStore "s" dAns oIncorrect).2 "s" dAns2
        oIncorrect).1.questionText = some cexErrText := by
  decide

/-- Claim C4 (amended): the retry loop accepts — and adds to the
asked-set — only a question text not already in the asked-set; but when
every attempt yields a text already in the asked-set, the last attempt's
record is still returned as the turn's final question (and the asked-set
is unchanged), so the final question text can already be in the
asked-set.  (get_question does not raise on duplicates: it returns an
error record that the loop treats like any other record.) -/
theorem C4_accept_not_asked (topic : String) (level : Nat) (cname : String)
    (asked : List String) (outs : List GenOutcome) :
    ((nextQuestion topic level cname asked outs).2 ≠ asked →
      (nextQuestion topic level cname asked outs).1.question ∉ asked ∧
      (nextQuestion topic level cname asked outs).2 =
        asked ++ [(nextQuestion topic level cname asked outs).1.question]) ∧
    ((nextQuestion topic level cname asked outs).1.question ∈ asked →
      (nextQuestion topic level cname asked outs).2 = asked) :=
  ⟨nextQuestion_grew topic level cname asked outs,
   nextQuestion_mem_same topic level cname asked outs⟩

/-- Claim C5: the concept index starts at 0, is always a valid index
into the concept list (hence fixed by `mod len(concepts)`), and after N
submitted answers (N at most 9, so that no turn is the completion turn,
on which the index does not advance) it equals `N mod len(concepts)`. -/
theorem C5_concept_idx (u t : String) (n : Nat) (cs : List QuizConcept)
    (sid : String) (st : Store) (ts : List (TurnData × TurnOracle))
    (h : st.sessions sid = some (createSession u t n cs))
    (hcs : 0 < cs.length) :
    (createSession u t n cs).current_concept_idx = 0 ∧
    (∀ s2, (runTurns st sid ts).sessions sid = some s2 →
      s2.current_concept_idx < cs.length ∧
      s2.current_concept_idx % cs.length = s2.current_concept_idx) ∧
    (ts.length ≤ 9 →
      ∀ s2, (runTurns st sid ts).sessions sid = some s2 →
        s2.current_concept_idx = ts.length % cs.length) := by
  obtain ⟨s2', hs2', hlen, hcon, -, hlt, hidx⟩ := runTurns_spec sid ts st _ h
  refine ⟨rfl, ?_, ?_⟩
  · intro s2 h2
    have heq : s2' = s2 := by
      rw [hs2'] at h2
      exact Option.some.inj h2
    rw [← heq]
    have hl : s2'.current_concept_idx < cs.length := hlt hcs
    exact ⟨hl, Nat.mod_eq_of_lt hl⟩
  · intro h9 s2 h2
    have heq : s2' = s2 := by
      rw [hs2'] at h2
      exact Option.some.inj h2
    rw [← heq]
    have := hidx (by simpa [createSession] using h9) (by simp [createSession])
      hcs
    simpa [createSession] using this

/-- Claim C6 (counterexample): the tenth answered turn completes the quiz
and runs cleanup_sessions, yet the completed session — whose
last_activity was just refreshed — is still in the store afterwards, with
its ten history entries and its stored final percentage.  Completion does
not delete the session. -/
theorem C6_counterexample :
    ∃ s9, (runTurns cexStore "s"
        (List.replicate 9 (dAns, oIncorrect))).sessions "s" = some s9 ∧
      s9.history.length = 9 ∧
      (answerTurn (runTurns cexStore "s" (List.replicate 9 (dAns, oIncorrect)))
          "s" dAns2 oIncorrect).1 = .complete ∧
      ∃ s10, (answerTurn (runTurns cexStore "s"
          (List.replicate 9 (dAns, oIncorrect))) "s" dAns2 oIncorrect).2.sessions
            "s" = some s10 ∧
        s10.history.length = 10 ∧
        s10.final_percentage_score.isSome = true := by
  have h0 : cexStore.sessions "s" = some (createSession "u" "T" 0 cexConcepts) := by
    decide
  obtain ⟨s9, hs9, hlen, -, -, -⟩ :=
    runTurns_spec "s" (List.replicate 9 (dAns, oIncorrect)) cexStore _ h0
  simp only [createSession, List.length_nil, List.length_replicate,
    Nat.zero_add] at hlen
  obtain ⟨hset, -, hiff⟩ := answerTurn_spec dAns2 oIncorrect hs9
  have hc : 10 ≤ s9.history.length + 1 := by omega
  refine ⟨s9, hs9, hlen, hiff.mpr hc, ?_⟩
  rw [if_pos hc] at hset
  refine ⟨_, hset, ?_, ?_⟩
  · rw [(completeSession_fields _).1, applyEval_history_length]
    simpa [touch] using by omega
  · rw [(completeSession_fields _).2.2.2.2.2.2]
    rfl

/-- Claim C6 (amended): `cleanup_sessions` removes exactly the sessions
whose time since last_activity exceeds 30 minutes — together with their
backups — and no other session; the completion turn runs it, but the
completing session, whose last_activity was just refreshed, survives:
sessions are deleted only by the inactivity sweep, not by completion. -/
theorem C6_cleanup_expired (now : Nat) (st : Store) (sid : String)
    (s : Session) (d : TurnData) (o : TurnOracle) :
    (st.sessions sid = some s →
      (cleanup_sessions now st).sessions sid =
        (if 30 < now - s.last_activity then none else some s) ∧
      (30 < now - s.last_activity →
        (cleanup_sessions now st).backups sid = none)) ∧
    (st.sessions sid = none →
      (cleanup_sessions now st).sessions sid = none ∧
      (cleanup_sessions now st).backups sid = st.backups sid) ∧
    (st.sessions sid = some s → 10 ≤ s.history.length + 1 →
      (answerTurn st sid d o).1 = .complete ∧
      ∃ s2, (answerTurn st sid d o).2.sessions sid = some s2) := by
  refine ⟨fun h => ⟨?_, fun h30 => ?_⟩, fun h => ⟨?_, ?_⟩, fun h hc => ?_⟩
  · by_cases h30 : 30 < now - s.last_activity
    · simp [cleanup_sessions, h, expired30, h30]
    · simp [cleanup_sessions, h, expired30, h30]
  · simp [cleanup_sessions, h, expired30, h30]
  · simp [cleanup_sessions, h]
  · simp [cleanup_sessions, h]
  · obtain ⟨hset, -, hiff⟩ := answerTurn_spec d o h
    exact ⟨hiff.mpr hc, _, hset⟩

/-- Claim C7 (code_bug evaluation): the first question is asked while the
session is at level 1, yet after a correct answer the recorded history
entry carries level 2 — the post-adjustment level, not the level at the
time the question was asked (record_response is called after the level
update, contradicting its own comment).  The entry's other recorded
fields — question, user answer, correct answer, skill — are as
submitted. -/
theorem C7_recorded_level :
    (cexStore.sessions "s").map (fun s => s.level) = some 1 ∧
    ((answerTurn cexStore "s" dAns oCorrect).2.sessions "s").map
        (fun s => s.history.map (fun hh =>
          (hh.question, hh.user_answer, hh.correct_answer, hh.skill,
            hh.level))) = some [("Q0", "x", "a", "C", 2)] := by
  decide

/-- Claim C8: the backup written during an answer turn is a structurally
independent copy of the live session taken before the turn's quiz-state
mutations (same history, score, level and asked-set; only last_activity
already refreshed), and the turn's mutations of the live entry leave it
unchanged; recovery never modifies the backup map and restores the live
entry as an independent copy of the backup value.  (Value semantics here
is the faithful image of the source's copy.deepcopy.) -/
theorem C8_backup_frame (st : Store) (sid : String) (s b : Session)
    (d : TurnData) (o : TurnOracle) :
    (st.sessions sid = some s →
      (answerTurn st sid d o).2.backups sid = some (touch s o.now) ∧
      (touch s o.now).history = s.history ∧
      (touch s o.now).score = s.score ∧
      (touch s o.now).level = s.level ∧
      (touch s o.now).asked_set = s.asked_set ∧
      ∃ s2, (answerTurn st sid d o).2.sessions sid = some s2 ∧
        s2.history.length = s.history.length + 1) ∧
    ((recover_session st sid).2.backups = st.backups) ∧
    (st.sessions sid = none → st.backups sid = some b →
      (recover_session st sid).1 = some b ∧
      (recover_session st sid).2.sessions sid = some b) := by
  refine ⟨fun h => ?_, recover_session_backups_eq st sid,
    fun h1 h2 => ⟨(recover_session_backup h1 h2).1,
      (recover_session_backup h1 h2).2.1⟩⟩
  obtain ⟨hset, hbk, -⟩ := answerTurn_spec d o h
  refine ⟨hbk, rfl, rfl, rfl, rfl, _, hset, ?_⟩
  split
  · rw [(completeSession_fields _).1, applyEval_history_length]
    rfl
  · rw [(nextTurnSession_fields _ _).1, applyEval_history_length]
    rfl

/-- Claim C9: on every evaluation failure — JSON parse error, malformed
fields, quota exhaustion, or any other exception — evaluate_answer still
returns a feedback string (it is a total function: it never raises); the
verdict the caller parses out of that string is incorrect (false), and
the string cites the provided correct answer. -/
theorem C9_eval_failure_default (question correct user_answer : String)
    (o : EvalOutcome) (hf : o.isFailure) :
    parseIsCorrect (evaluate_answer question correct user_answer o) = false ∧
    ∃ pre, evaluate_answer question correct user_answer o = pre ++ correct := by
  cases o with
  | ok b r e => exact absurd hf (by simp [EvalOutcome.isFailure])
  | parseError =>
    exact ⟨parseIsCorrect_jline _ _ (by decide) (by decide) (by decide),
      ⟨_, (sappend_assoc ("Judgment: Error - Failed to parse AI feedback" ++ "\n")
        "Explanation: Evaluation system encountered a JSON parsing error. Please check the logs for the raw AI response. The correct answer was: "
        correct).symm⟩⟩
  | valError =>
    exact ⟨parseIsCorrect_jline _ _ (by decide) (by decide) (by decide),
      ⟨_, (sappend_assoc ("Judgment: Error - Invalid AI feedback format" ++ "\n")
        "Explanation: Evaluation system received malformed data from AI. Please check the logs. The correct answer was: "
        correct).symm⟩⟩
  | quotaError =>
    exact ⟨parseIsCorrect_jline _ _ (by decide) (by decide) (by decide),
      ⟨_, (sappend_assoc
        ("Judgment: Incorrect! (Evaluation failed due to API limit)" ++ "\n")
        "Explanation: Could not fully evaluate your answer due to an API service issue. Your daily API quota might be exhausted. Please try again later. The correct answer was: "
        correct).symm⟩⟩
  | otherError =>
    exact ⟨parseIsCorrect_jline _ _ (by decide) (by decide) (by decide),
      ⟨_, (sappend_assoc
        ("Judgment: Incorrect! (Evaluation failed due to technical error)" ++ "\n")
        "Explanation: Evaluation system encountered an unexpected error. Please try again. The correct answer was: "
        correct).symm⟩⟩

/-- Claim C10: every failing get_question call returns a record whose
question field is a non-empty error message and whose error field is set
(this includes the internal duplicate rejection); the answer route's
retry loop accepts any record — error records included — whose text is
not already in the asked-set, adding its text to the asked-set and
returning it; and the fixed fallback question is substituted only when
the loop produced no record at all (never when at least one attempt ran,
since every result carries a question key). -/
theorem C10_error_records (topic : String) (level : Nat) (cname : String)
    (asked : List String) :
    (∀ o : GenOutcome, o.isFailure →
      (get_question topic level cname asked o).question ≠ "" ∧
      (get_question topic level cname asked o).error ≠ none) ∧
    (∀ q a e sk d, q ∈ asked →
      (get_question topic level cname asked (.ok q a e sk d)).question ≠ "" ∧
      (get_question topic level cname asked (.ok q a e sk d)).error ≠ none) ∧
    (∀ (o : GenOutcome) (outs : List GenOutcome),
      (get_question topic level cname asked o).question ≠ "" →
      (get_question topic level cname asked o).question ∉ asked →
      nextQuestion topic level cname asked (o :: outs) =
        (get_question topic level cname asked o,
          asked ++ [(get_question topic level cname asked o).question])) ∧
    (∀ outs : List GenOutcome, outs ≠ [] →
      (nextQAux topic level cname asked outs none).1 ≠ none) ∧
    (nextQuestion topic level cname asked [] = (fallbackQ level, asked)) := by
  refine ⟨fun o hf => get_question_failure_shape topic level cname asked o hf,
    fun q a e sk d hm =>
      get_question_duplicate_shape topic level cname asked q a e sk d hm,
    fun o outs h1 h2 =>
      nextQuestion_accept_first topic level cname asked o outs h1 h2,
    fun outs hne => ?_,
    nextQuestion_nil topic level cname asked⟩
  have hsome := nextQAux_isSome topic level cname asked outs none (Or.inr hne)
  intro hnone
  rw [hnone] at hsome
  simp at hsome

/-! ## Witnesses -/

/-- A store holding only a backup for id `s`. -/
def cexBackupOnly : Store :=
  { sessions := fun _ => none,
    backups := fun k =>
      if k = "s" then some (createSession "u" "T" 0 cexConcepts) else none }

/-- The empty store. -/
def cexEmpty : Store := { sessions := fun _ => none, backups := fun _ => none }

/-- A plain history entry used to build long histories. -/
def cexEntry : HistoryEntry := ⟨"q", "u", "c", "f", 0, 1, "C"⟩

/-- A store holding a session that has already answered nine questions. -/
def cexStore9 : Store :=
  singleStore "s"
    { createSession "u" "T" 0 cexConcepts with
      history := List.replicate 9 cexEntry }

/-- A store holding a session and its backup, both last active at time 0. -/
def cexOldStore : Store :=
  { sessions := fun k =>
      if k = "s" then some (createSession "u" "T" 0 cexConcepts) else none,
    backups := fun k =>
      if k = "s" then some (createSession "u" "T" 0 cexConcepts) else none }

/-- Witness for C1_recover_spec: all three recover modes and the
post-eviction restoration, at concrete stores. -/
theorem C1_recover_spec_witness :
    (cexStore.sessions "s" = some (createSession "u" "T" 0 cexConcepts) ∧
      recover_session cexStore "s" =
        (some (createSession "u" "T" 0 cexConcepts), cexStore)) ∧
    (cexBackupOnly.sessions "s" = none ∧
      cexBackupOnly.backups "s" = some (createSession "u" "T" 0 cexConcepts) ∧
      (recover_session cexBackupOnly "s").1 =
        some (createSession "u" "T" 0 cexConcepts)) ∧
    (cexEmpty.sessions "s" = none ∧ cexEmpty.backups "s" = none ∧
      recover_session cexEmpty "s" = (none, cexEmpty)) ∧
    ((recover_session (evictLive (answerTurn cexStore "s" dAns oCorrect).2 "s")
        "s").1 =
      some (touch (createSession "u" "T" 0 cexConcepts) oCorrect.now)) := by
  have h1 := C1_recover_spec cexStore "s" (createSession "u" "T" 0 cexConcepts)
    (createSession "u" "T" 0 cexConcepts) dAns oCorrect
  have h2 := C1_recover_spec cexBackupOnly "s"
    (createSession "u" "T" 0 cexConcepts)
    (createSession "u" "T" 0 cexConcepts) dAns oCorrect
  have h3 := C1_recover_spec cexEmpty "s" (createSession "u" "T" 0 cexConcepts)
    (createSession "u" "T" 0 cexConcepts) dAns oCorrect
  exact ⟨⟨by decide, h1.1 (by decide)⟩,
    ⟨by decide, by decide, (h2.2.1 (by decide) (by decide)).1⟩,
    ⟨by decide, by decide, h3.2.2.1 (by decide) (by decide)⟩,
    (h1.2.2.2 (by decide)).2.1⟩

/-- Witness for C2_level_clamped at a concrete fresh store and a one-turn
run. -/
theorem C2_level_clamped_witness :
    (cexStore.sessions "s" = some (createSession "u" "T" 0 cexConcepts)) ∧
    ((createSession "u" "T" 0 cexConcepts).level = 1 ∧
      ∀ s2, (runTurns cexStore "s" [(dAns, oCorrect)]).sessions "s" = some s2 →
        1 ≤ s2.level ∧ s2.level ≤ 5) := by
  have h := C2_level_clamped "u" "T" 0 cexConcepts "s" cexStore
    [(dAns, oCorrect)] (by decide)
  exact ⟨by decide, h.1, h.2.2⟩

/-- Witness for C3_completion_threshold: a session with nine answered
questions completes on its next submission. -/
theorem C3_completion_threshold_witness :
    (cexStore9.sessions "s" =
      some { createSession "u" "T" 0 cexConcepts with
        history := List.replicate 9 cexEntry }) ∧
    (10 ≤ ({ createSession "u" "T" 0 cexConcepts with
        history := List.replicate 9 cexEntry } : Session).history.length + 1) ∧
    ((answerTurn cexStore9 "s" dAns oIncorrect).1 = .complete ∧
      (answerTurn cexStore9 "s" dAns oIncorrect).1.questionText = none) := by
  have h := C3_completion_threshold cexStore9 "s"
    { createSession "u" "T" 0 cexConcepts with
      history := List.replicate 9 cexEntry } dAns oIncorrect (by decide)
  exact ⟨by decide, by decide, (h.2 (by decide)).1, (h.2 (by decide)).2.1⟩

/-- Witness for C4_accept_not_asked: an accepted new question grows the
asked-set; a turn whose only attempt reproduces an already-asked text
leaves the asked-set unchanged while returning that text. -/
theorem C4_accept_not_asked_witness :
    ((nextQuestion "T" 1 "C" ["A"] [.ok "B" "b" "e" "C" 1]).2 ≠ ["A"] ∧
      ((nextQuestion "T" 1 "C" ["A"] [.ok "B" "b" "e" "C" 1]).1.question ∉
          (["A"] : List String) ∧
        (nextQuestion "T" 1 "C" ["A"] [.ok "B" "b" "e" "C" 1]).2 =
          ["A"] ++
            [(nextQuestion "T" 1 "C" ["A"] [.ok "B" "b" "e" "C" 1]).1.question])) ∧
    ((nextQuestion "T" 1 "C" [cexErrText] [.parseError]).1.question ∈
        [cexErrText] ∧
      (nextQuestion "T" 1 "C" [cexErrText] [.parseError]).2 = [cexErrText]) := by
  have h1 := C4_accept_not_asked "T" 1 "C" ["A"] [.ok "B" "b" "e" "C" 1]
  have h2 := C4_accept_not_asked "T" 1 "C" [cexErrText] [.parseError]
  exact ⟨⟨by decide, h1.1 (by decide)⟩, by decide, h2.2 (by decide)⟩

/-- Witness for C5_concept_idx at a concrete two-turn run over a
one-concept list. -/
theorem C5_concept_idx_witness :
    (cexStore.sessions "s" = some (createSession "u" "T" 0 cexConcepts) ∧
      0 < cexConcepts.length ∧
      [(dAns, oCorrect), (dAns2, oIncorrect)].length ≤ 9) ∧
    ((createSession "u" "T" 0 cexConcepts).current_concept_idx = 0 ∧
      ∀ s2, (runTurns cexStore "s"
          [(dAns, oCorrect), (dAns2, oIncorrect)]).sessions "s" = some s2 →
        s2.current_concept_idx =
          [(dAns, oCorrect), (dAns2, oIncorrect)].length % cexConcepts.length) := by
  have h := C5_concept_idx "u" "T" 0 cexConcepts "s" cexStore
    [(dAns, oCorrect), (dAns2, oIncorrect)] (by decide) (by decide)
  exact ⟨⟨by decide, by decide, by decide⟩, h.1, h.2.2 (by decide)⟩

/-- Witness for C6_cleanup_expired: an expired session (and its backup)
is removed at time 31, kept at time 10; a missing live entry leaves the
backup untouched; a ten-answer session's completing turn leaves it in the
store. -/
theorem C6_cleanup_expired_witness :
    (cexOldStore.sessions "s" = some (createSession "u" "T" 0 cexConcepts) ∧
      30 < 31 - (createSession "u" "T" 0 cexConcepts).last_activity) ∧
    ((cleanup_sessions 31 cexOldStore).sessions "s" =
        (if 30 < 31 - (createSession "u" "T" 0 cexConcepts).last_activity
          then none else some (createSession "u" "T" 0 cexConcepts)) ∧
      (cleanup_sessions 31 cexOldStore).backups "s" = none) ∧
    ((cleanup_sessions 10 cexOldStore).sessions "s" =
      (if 30 < 10 - (createSession "u" "T" 0 cexConcepts).last_activity
        then none else some (createSession "u" "T" 0 cexConcepts))) ∧
    ((cleanup_sessions 31 cexBackupOnly).backups "s" =
      cexBackupOnly.backups "s") ∧
    ((answerTurn cexStore9 "s" dAns oIncorrect).1 = .complete ∧
      ∃ s2, (answerTurn cexStore9 "s" dAns oIncorrect).2.sessions "s" =
        some s2) := by
  have h31 := C6_cleanup_expired 31 cexOldStore "s"
    (createSession "u" "T" 0 cexConcepts) dAns oIncorrect
  have h10 := C6_cleanup_expired 10 cexOldStore "s"
    (createSession "u" "T" 0 cexConcepts) dAns oIncorrect
  have hbk := C6_cleanup_expired 31 cexBackupOnly "s"
    (createSession "u" "T" 0 cexConcepts) dAns oIncorrect
  have hc := C6_cleanup_expired 0 cexStore9 "s"
    { createSession "u" "T" 0 cexConcepts with
      history := List.replicate 9 cexEntry } dAns oIncorrect
  exact ⟨⟨by decide, by decide⟩,
    ⟨(h31.1 (by decide)).1, (h31.1 (by decide)).2 (by decide)⟩,
    (h10.1 (by decide)).1,
    (hbk.2.1 (by decide)).2,
    hc.2.2 (by decide) (by decide)⟩

/-- Witness for C8_backup_frame: the concrete turn's backup equals the
touched pre-turn session, and restoration from a backup-only store. -/
theorem C8_backup_frame_witness :
    (cexStore.sessions "s" = some (createSession "u" "T" 0 cexConcepts)) ∧
    ((answerTurn cexStore "s" dAns oCorrect).2.backups "s" =
      some (touch (createSession "u" "T" 0 cexConcepts) oCorrect.now)) ∧
    (cexBackupOnly.sessions "s" = none ∧
      cexBackupOnly.backups "s" = some (createSession "u" "T" 0 cexConcepts) ∧
      (recover_session cexBackupOnly "s").2.sessions "s" =
        some (createSession "u" "T" 0 cexConcepts)) := by
  have h := C8_backup_frame cexStore "s" (createSession "u" "T" 0 cexConcepts)
    (createSession "u" "T" 0 cexConcepts) dAns oCorrect
  have h2 := C8_backup_frame cexBackupOnly "s"
    (createSession "u" "T" 0 cexConcepts)
    (createSession "u" "T" 0 cexConcepts) dAns oCorrect
  exact ⟨by decide, (h.1 (by decide)).1,
    by decide, by decide, (h2.2.2 (by decide) (by decide)).2⟩

/-- Witness for C9_eval_failure_default at a concrete failing
evaluation. -/
theorem C9_eval_failure_default_witness :
    EvalOutcome.parseError.isFailure ∧
    (parseIsCorrect (evaluate_answer "Q" "7" "8" .parseError) = false ∧
      ∃ pre, evaluate_answer "Q" "7" "8" .parseError = pre ++ "7") := by
  exact ⟨by decide, C9_eval_failure_default "Q" "7" "8" .parseError (by decide)⟩

/-- Witness for C10_error_records at concrete failing generations. -/
theorem C10_error_records_witness :
    (GenOutcome.parseError.isFailure ∧
      ((get_question "T" 1 "C" ["A"] .parseError).question ≠ "" ∧
        (get_question "T" 1 "C" ["A"] .parseError).error ≠ none)) ∧
    (("A" ∈ (["A"] : List String)) ∧
      ((get_question "T" 1 "C" ["A"] (.ok "A" "b" "e" "C" 1)).question ≠ "" ∧
        (get_question "T" 1 "C" ["A"] (.ok "A" "b" "e" "C" 1)).error ≠ none)) ∧
    (((get_question "T" 1 "C" ["A"] .quotaError).question ≠ "" ∧
        (get_question "T" 1 "C" ["A"] .quotaError).question ∉
          (["A"] : List String)) ∧
      nextQuestion "T" 1 "C" ["A"] [.quotaError] =
        (get_question "T" 1 "C" ["A"] .quotaError,
          ["A"] ++ [(get_question "T" 1 "C" ["A"] .quotaError).question])) ∧
    (([GenOutcome.parseError] ≠ ([] : List GenOutcome)) ∧
      (nextQAux "T" 1 "C" ["A"] [.parseError] none).1 ≠ none) := by
  have h := C10_error_records "T" 1 "C" ["A"]
  exact ⟨⟨by decide, h.1 .parseError (by decide)⟩,
    ⟨by decide, h.2.1 "A" "b" "e" "C" 1 (by decide)⟩,
    ⟨⟨by decide, by decide⟩, h.2.2.1 .quotaError [] (by decide) (by decide)⟩,
    ⟨by decide, h.2.2.2.1 [.parseError] (by decide)⟩⟩
